import Mathlib

/-!
Verification of the real-time WebSocket fan-out layer of the
`logistics-id/engine` repository: the Sender (local/remote routing),
the broker subscribers, the AckStore, the restore handler, the rate
limiter, the Hub delivery primitive and the per-connection read loops.

Shallow embedding conventions: raw byte payloads and serialized
messages are opaque `String`s; the results of external collaborator
calls (Redis, RabbitMQ, `json.Unmarshal`) are passed in as explicit
parameters (`Option`/`Except` values, `none`/`ok` meaning success);
Go's epoch-millisecond `int64` timestamps are `Int`; logging is not
modelled (it has no observable effect on the properties checked here).
-/

/-- Wire envelope (`Envelope` in src/unnamed/part_019): target user,
type discriminator, opaque payload bytes, message id, ack flag and an
optional absolute epoch-millisecond deadline. The Go struct tags all
optional fields `omitempty`, so an absent `expiresAt` is the zero
value `0`. -/
structure Envelope where
  userID : String
  type : String
  payload : String
  id : String
  requiresAck : Bool
  expiresAt : Int
  deriving DecidableEq, Repr

/-- One observable delivery action of a Sender: a local delivery via
`Hub.SendLocal`, or a broker publish to a routing key. -/
inductive SendAction where
  | sendLocal (userID msg : String)
  | publish (topic msg : String)
  deriving DecidableEq, Repr

/-- The pod-scoped routing key `"ws.send.<podID>"`, as built inline by
`MQSender.SendToUser` (src/unnamed/part_019) and by the legacy
`Sender.SendToUser` (src/transport/ws/sender.go). -/
def wsSendKey (pod : String) : String := "ws.send." ++ pod

/-- `RMQSender.getKey` (src/unnamed/part_017): the same pod-scoped
routing key, via `fmt.Sprintf("ws.send.%s", pod)`. -/
def RMQSender.getKey (pod : String) : String := "ws.send." ++ pod

/-- The per-pod loop of `MQSender.SendToUser` (src/unnamed/part_019,
lines 98-122): for each pod of the user's presence set, deliver via
`Hub.SendLocal` when the pod equals this process's own pod id (the
`SendLocal` error is ignored there), otherwise publish to the pod's
routing key; a failed publish returns its error at once, keeping the
deliveries already performed. `pubErr` gives the outcome of a broker
publish per topic (`none` = success). -/
def MQSender.sendLoop (podID : String) (pubErr : String → Option String)
    (userID msg : String) : List String → List SendAction × Option String
  | [] => ([], none)
  | pod :: rest =>
    if pod = podID then
      let r := MQSender.sendLoop podID pubErr userID msg rest
      (SendAction.sendLocal userID msg :: r.1, r.2)
    else
      match pubErr (wsSendKey pod) with
      | some e => ([], some e)
      | none =>
        let r := MQSender.sendLoop podID pubErr userID msg rest
        (SendAction.publish (wsSendKey pod) msg :: r.1, r.2)

/-- `MQSender.SendToUser` (src/unnamed/part_019, lines 98-122): query
the presence registry for the user's pods (a registry error is
returned as-is with no delivery), then run the per-pod loop.
`registry` is the `GetUserPods` result. -/
def MQSender.SendToUser (podID : String) (pubErr : String → Option String)
    (registry : Except String (List String)) (userID msg : String) :
    List SendAction × Option String :=
  match registry with
  | .error e => ([], some e)
  | .ok pods => MQSender.sendLoop podID pubErr userID msg pods

/-- The per-pod loop of `RMQSender.SendToUser` (src/unnamed/part_017,
lines 41-71): same structure as `MQSender.sendLoop` — local delivery
for this pod's own id, `Broker.Publish` to `getKey pod` otherwise,
returning the first publish error and keeping earlier deliveries. -/
def RMQSender.sendLoop (podID : String) (pubErr : String → Option String)
    (userID msg : String) : List String → List SendAction × Option String
  | [] => ([], none)
  | pod :: rest =>
    if pod = podID then
      let r := RMQSender.sendLoop podID pubErr userID msg rest
      (SendAction.sendLocal userID msg :: r.1, r.2)
    else
      match pubErr (RMQSender.getKey pod) with
      | some e => ([], some e)
      | none =>
        let r := RMQSender.sendLoop podID pubErr userID msg rest
        (SendAction.publish (RMQSender.getKey pod) msg :: r.1, r.2)

/-- `RMQSender.SendToUser` (src/unnamed/part_017, lines 41-71):
registry errors are returned with no delivery; otherwise the per-pod
loop runs and the function returns nil (or the first publish error). -/
def RMQSender.SendToUser (podID : String) (pubErr : String → Option String)
    (registry : Except String (List String)) (userID msg : String) :
    List SendAction × Option String :=
  match registry with
  | .error e => ([], some e)
  | .ok pods => RMQSender.sendLoop podID pubErr userID msg pods

/-- The publish loop of the legacy `Sender.SendToUser`
(src/transport/ws/sender.go, lines 39-43): publishes the marshalled
envelope to every pod's routing key and IGNORES the publish result —
`s.Rabbit.Publish(ctx, routingKey, body)` is a bare statement whose
error is dropped, so a failed publish delivers nothing for that pod
yet surfaces no error. -/
def Sender.publishLoop (pubErr : String → Option String) (msg : String) :
    List String → List SendAction
  | [] => []
  | pod :: rest =>
    match pubErr (wsSendKey pod) with
    | some _ => Sender.publishLoop pubErr msg rest
    | none => SendAction.publish (wsSendKey pod) msg :: Sender.publishLoop pubErr msg rest

/-- The legacy `Sender.SendToUser` (src/transport/ws/sender.go, lines
25-44): when the registry errs OR the pod list is empty it returns the
error `"no active pods for user <id>"`; otherwise it publishes the
marshalled envelope (`msg`, kept opaque) to every pod and returns nil.
It never delivers locally. -/
def Sender.SendToUser (pubErr : String → Option String)
    (registry : Except String (List String)) (userID msg : String) :
    List SendAction × Option String :=
  match registry with
  | .error _ => ([], some ("no active pods for user " ++ userID))
  | .ok pods =>
    if pods.isEmpty then ([], some ("no active pods for user " ++ userID))
    else (Sender.publishLoop pubErr msg pods, none)

/-- The single route `MQSender`/`RMQSender` picks for one pod of the
presence set: local delivery for this process's own pod, a publish to
`ws.send.<pod>` for any other pod. -/
def routeAction (podID userID msg : String) (pod : String) : SendAction :=
  if pod = podID then SendAction.sendLocal userID msg
  else SendAction.publish (wsSendKey pod) msg

/-- Observable events of a broker consumer: the broker-level
acknowledgment of the delivery, and a `Hub.SendLocal` attempt with its
success flag. -/
inductive ConsumeEvent where
  | ack
  | sendLocal (userID : String) (ok : Bool)
  deriving DecidableEq, Repr

/-- The subscription handler installed by `NewRMQSender`
(src/unnamed/part_017, lines 73-109): unmarshal the envelope (failure
returns the error with no ack), call `hub.SendLocal` (failure returns
the error with no ack), and only then `msg.Ack(true)`. `decoded` is
the `json.Unmarshal` result, `sendLocalErr` the `SendLocal` result. -/
def RMQSender.consumeHandler (decoded : Option Envelope)
    (sendLocalErr : Option String) : List ConsumeEvent × Option String :=
  match decoded with
  | none => ([], some "unmarshal failed")
  | some env =>
    match sendLocalErr with
    | some e => ([ConsumeEvent.sendLocal env.userID false], some e)
    | none => ([ConsumeEvent.sendLocal env.userID true, ConsumeEvent.ack], none)

/-- The consumer started by `StartConsumer` (src/unnamed/part_019,
lines 125-148): `ch.Consume` is called with auto-ack = true, so by the
AMQP contract the broker marks every message acknowledged at delivery,
before the handler runs; the handler then unmarshals (silently
skipping failures) and calls `hub.SendLocal` with its error ignored
(`slOk` records whether that local delivery succeeded). -/
def StartConsumer.consumeEvents (decoded : Option Envelope) (slOk : Bool) :
    List ConsumeEvent :=
  ConsumeEvent.ack ::
    (match decoded with
     | none => []
     | some env => [ConsumeEvent.sendLocal env.userID slOk])

/-- Acknowledge-after-process: every broker-level ack in an event
trace is preceded by a successful local delivery. -/
def ackAfterDelivery (evs : List ConsumeEvent) : Prop :=
  ∀ i, evs.get? i = some ConsumeEvent.ack →
    ∃ j u, j < i ∧ evs.get? j = some (ConsumeEvent.sendLocal u true)

/-- A live connection as the Hub sees it: connection id, owning user,
and the bounded outbound channel (current contents plus capacity —
`make(chan []byte, 64)` in `RegisterConn`, src/unnamed/part_020). -/
structure HubConn where
  connID : String
  userID : String
  buf : List String
  cap : Nat
  deriving DecidableEq, Repr

/-- Modelled from the spec: the Hub used by the current engine
(`NewHub` / `Hub.Add` / `Hub.Remove` / `Hub.SendLocal`) is not under
src/ — only its callers (src/unnamed/part_020, wrapper.go) and the
legacy Hub (src/transport/ws/hub.go) are. Spec 4.1: `Add(userID,
conn)` inserts the connection into the per-user set, creating it if
absent; modelled as a flat list of connections tagged by user. -/
def Hub.Add (userID : String) (c : HubConn) (hub : List HubConn) : List HubConn :=
  { c with userID := userID } :: hub

/-- Modelled from the spec (4.1, `Hub.Remove` not under src/):
`Remove(conn)` removes the connection from its user's set. -/
def Hub.Remove (cid : String) (hub : List HubConn) : List HubConn :=
  hub.filter (fun c => c.connID ≠ cid)

/-- The non-blocking enqueue onto a connection's outbound channel, as
in `Conn.Reply` (src/unnamed/part_019, lines 14-33): a `select` with a
`default` branch enqueues when the channel has room and drops the
message when it is full. -/
def Conn.tryEnqueue (msg : String) (c : HubConn) : HubConn :=
  if c.buf.length < c.cap then { c with buf := c.buf ++ [msg] } else c

/-- Modelled from the spec (4.1, `Hub.SendLocal` not under src/):
`SendLocal(userID, bytes)` attempts a non-blocking enqueue onto the
outbound channel of every connection of that user (drop-on-full);
connections of other users are untouched. -/
def Hub.SendLocal (userID msg : String) (hub : List HubConn) : List HubConn :=
  hub.map (fun c => if c.userID = userID then Conn.tryEnqueue msg c else c)

/-- The outcome of processing one iteration of a read loop: whether
the loop exits (tearing the connection down), the structured replies
sent back to the client as `(type, payload)` pairs, and the message
type handed to the router/handler table, if any. -/
structure ReadStepResult where
  closes : Bool
  replies : List (String × String)
  dispatched : Option String
  deriving DecidableEq, Repr

/-- One iteration of `WebSocket.readLoop` (src/unnamed/part_020, lines
129-168): a read error exits the loop (teardown); a rate-limited frame
is dropped and the loop continues; a malformed-JSON frame is logged
and the loop continues — no reply is sent; otherwise the envelope's
type is dispatched via the Router. `readErr` is the `ReadMessage`
outcome, `allowed` the `RateLimiter.Allow` verdict and `decoded` the
`json.Unmarshal` result. -/
def WebSocket.readLoopStep (readErr : Bool) (allowed : Bool)
    (decoded : Option Envelope) : ReadStepResult :=
  if readErr then ⟨true, [], none⟩
  else if !allowed then ⟨false, [], none⟩
  else
    match decoded with
    | none => ⟨false, [], none⟩
    | some env => ⟨false, [], some env.type⟩

/-- Inbound message of the legacy hub (`Message` in
src/transport/ws/router.go's generation): a type tag plus payload. -/
structure Message where
  type : String
  payload : String
  deriving DecidableEq, Repr

/-- One iteration of the legacy `Hub.listen` (src/transport/ws/hub.go,
lines 105-148): a read error breaks the loop; malformed JSON replies
with the `"error"` envelope "error parsing command" and continues; an
unregistered type replies "unknown command"; a registered type whose
binder fails replies "invalid payload"; otherwise the handler runs.
`route t` is `none` when no handler is registered for `t`, and `some
bindOk` when one is, with `bindOk` the payload-binding outcome. -/
def Hub.listenStep (readErr : Bool) (decoded : Option Message)
    (route : String → Option Bool) : ReadStepResult :=
  if readErr then ⟨true, [], none⟩
  else
    match decoded with
    | none => ⟨false, [("error", "error parsing command")], none⟩
    | some m =>
      match route m.type with
      | none => ⟨false, [("error", "unknown command")], none⟩
      | some false => ⟨false, [("error", "invalid payload")], none⟩
      | some true => ⟨false, [], some m.type⟩

/-- The ack-outbox key `"<pfx>:<userID>:<msgID>"` built by
`AckStore.Save` and `AckStore.AckHandler` (src/transport/ws/ack.go). -/
def AckStore.entryKey (pfx userID msgID : String) : String :=
  pfx ++ ":" ++ userID ++ ":" ++ msgID

/-- `AckStore.Save` (src/transport/ws/ack.go, lines 21-29): `SETEX`
the serialized envelope under the TTL-bounded key; a storage error is
only logged — the Go function has no error return at all, so the
second component (the error surfaced to the caller) is always `none`.
The store is modelled as an association list key → bytes; `setexErr`
is the `SETEX` outcome. -/
def AckStore.Save (setexErr : Option String) (store : List (String × String))
    (key msg : String) : List (String × String) × Option String :=
  match setexErr with
  | some _ => (store, none)
  | none => ((key, msg) :: store, none)

/-- `AckStore.AckHandler` (src/transport/ws/ack.go, lines 32-47):
parse `{id}` from the payload (an unmarshal error is returned); `DEL`
the entry for this connection's user; a `DEL` storage error is only
logged as a warning and the function returns nil. `decoded` is the
parsed id (`none` = unmarshal failure), `delErr` the `DEL` outcome. -/
def AckStore.AckHandler (pfx userID : String) (decoded : Option String)
    (delErr : Option String) (store : List (String × String)) :
    List (String × String) × Option String :=
  match decoded with
  | none => (store, some "unmarshal error")
  | some id =>
    match delErr with
    | some _ => (store, none)
    | none => (store.filter (fun kv => kv.1 ≠ AckStore.entryKey pfx userID id), none)

/-- The result of the restore handler: the envelopes redelivered via
`Hub.SendLocal`, whether the explicit "no message" envelope was sent,
and the error returned to the Router. -/
structure RestoreResult where
  redelivered : List Envelope
  noMessageReply : Bool
  err : Option String
  deriving DecidableEq, Repr

/-- The per-entry filter of `WebSocket.restoreHandler`
(src/unnamed/part_020, lines 223-283): skip an entry when
`env.ExpiresAt > 0 && env.ExpiresAt < now` (already expired), or when
`req.Since > 0 && env.ExpiresAt > 0 && env.ExpiresAt < req.Since`;
otherwise redeliver it. -/
def WebSocket.restoreKeep (now since : Int) (env : Envelope) : Bool :=
  !(decide (0 < env.expiresAt) && decide (env.expiresAt < now)) &&
  !(decide (0 < since) && decide (0 < env.expiresAt) && decide (env.expiresAt < since))

/-- `WebSocket.restoreHandler` (src/unnamed/part_020, lines 223-283):
parse `{since}` (an unmarshal error is returned); scan the user's
stored entries (`KEYS` failure is logged and the handler returns nil
with nothing delivered); when no entries exist reply with the explicit
"no message" restore envelope; otherwise redeliver, via
`Hub.SendLocal`, every entry passing `restoreKeep`. `entries` holds
the stored envelopes of the requesting user that `GET` +
`json.Unmarshal` decode successfully (entries written by
`AckStore.Save` always do, being marshalled envelopes); the handler
skips the others. -/
def WebSocket.restoreHandler (now : Int) (decodedSince : Option Int)
    (scanErr : Bool) (entries : List Envelope) : RestoreResult :=
  match decodedSince with
  | none => ⟨[], false, some "unmarshal failed"⟩
  | some since =>
    if scanErr then ⟨[], false, none⟩
    else if entries.isEmpty then ⟨[], true, none⟩
    else ⟨entries.filter (WebSocket.restoreKeep now since), false, none⟩

/-- Result of one `RedisRateLimiter.Allow` call: the verdict and
whether this call set the window key's expiry. -/
structure AllowResult where
  allowed : Bool
  setExpire : Bool
  deriving DecidableEq, Repr

/-- `RedisRateLimiter.Allow` (src/transport/ws/registry_redis.go,
lines 156-180): `INCR` the user's window counter — on a storage error
fail open (return true, nothing else happens); when the incremented
count is 1 (the increment that establishes the window) set the key's
expiry to the window length; return false once the count exceeds the
limit, true otherwise. `incr` is the `INCR` result (`none` = storage
error). `NewRedisRateLimiter` defaults: limit 20, window 10s. -/
def RedisRateLimiter.Allow (limit : Nat) (incr : Option Nat) : AllowResult :=
  match incr with
  | none => ⟨true, false⟩
  | some count => ⟨decide (count ≤ limit), count == 1⟩

/-- The verdicts of `n` successive `Allow` calls within one fixed
window: by Redis `INCR` semantics the counter takes the values
1, 2, ..., n. -/
def RedisRateLimiter.allowCalls (limit n : Nat) : List Bool :=
  (List.range n).map (fun i => (RedisRateLimiter.Allow limit (some (i + 1))).allowed)

/-- Observable events of `WebSocket.SendToUser`: a save into the
AckStore, and the dispatch to the configured Sender. -/
inductive SendEvent where
  | ackSave (userID id msg : String)
  | dispatch (userID msg : String)
  deriving DecidableEq, Repr

/-- `WebSocket.SendToUser` (src/unnamed/part_020, lines 56-68):
marshal the envelope (failure returns the marshal error, nothing else
happens); save the bytes into the AckStore exactly when
`payload.RequiresAck && ws.AckStore != nil && payload.ID != ""`; then
dispatch to the Sender, returning the Sender's result. `marshalled` is
the `json.Marshal` result, `hasAckStore` whether an AckStore is
configured and `senderErr` the `Sender.SendToUser` outcome. -/
def WebSocket.SendToUser (hasAckStore : Bool) (marshalled : Option String)
    (senderErr : Option String) (userID : String) (e : Envelope) :
    List SendEvent × Option String :=
  match marshalled with
  | none => ([], some "marshal failed")
  | some msg =>
    if e.requiresAck && hasAckStore && !(e.id == "") then
      ([SendEvent.ackSave userID e.id msg, SendEvent.dispatch userID msg], senderErr)
    else
      ([SendEvent.dispatch userID msg], senderErr)

/-- When every publish to a remote pod's routing key succeeds, the
MQSender per-pod loop performs exactly one route per pod, in order,
and returns nil. -/
theorem MQSender.sendLoop_all_ok (podID : String) (pubErr : String → Option String)
    (userID msg : String) :
    ∀ pods : List String, (∀ q ∈ pods, q ≠ podID → pubErr (wsSendKey q) = none) →
      MQSender.sendLoop podID pubErr userID msg pods
        = (pods.map (routeAction podID userID msg), none) := by
  intro pods
  induction pods with
  | nil => intro _; rfl
  | cons pod rest ih =>
    intro h
    have hrest := ih (fun q hq => h q (List.mem_cons_of_mem _ hq))
    by_cases hp : pod = podID
    · simp [MQSender.sendLoop, hp, routeAction, hrest]
    · have hnone := h pod (List.mem_cons_self _ _) hp
      simp [MQSender.sendLoop, hp, hnone, routeAction, hrest]

/-- The RMQSender per-pod loop computes the same result as the
MQSender one (the two functions are structurally identical and
`RMQSender.getKey` builds the same routing key). -/
theorem RMQSender.sendLoop_eq (podID : String) (pubErr : String → Option String)
    (userID msg : String) :
    ∀ pods : List String,
      RMQSender.sendLoop podID pubErr userID msg pods
        = MQSender.sendLoop podID pubErr userID msg pods := by
  intro pods
  induction pods with
  | nil => rfl
  | cons pod rest ih =>
    by_cases hp : pod = podID
    · simp [RMQSender.sendLoop, MQSender.sendLoop, hp, ih]
    · simp only [RMQSender.sendLoop, MQSender.sendLoop, hp, if_false, ih,
        RMQSender.getKey, wsSendKey]

/-- Claim C1: for every user with presence set `pods`,
`MQSender.SendToUser` (and the structurally identical
`RMQSender.SendToUser`) delivers to each pod by exactly one of two
routes — `Hub.SendLocal` when the pod equals this process's own pod
id, otherwise a publish to the topic `"ws.send.<pod>"` — so when every
remote publish succeeds the performed actions are exactly one route
per pod, in presence order, with a nil error; a send from pod "p2" for
a user present only on "p1" is the witness instance: exactly one
publish to `ws.send.p1` and no local delivery. -/
theorem C1_sender_fanout_routes (podID : String) (pubErr : String → Option String)
    (userID msg : String) (pods : List String)
    (hok : ∀ q ∈ pods, q ≠ podID → pubErr (wsSendKey q) = none) :
    MQSender.SendToUser podID pubErr (Except.ok pods) userID msg
        = (pods.map (routeAction podID userID msg), none)
    ∧ RMQSender.SendToUser podID pubErr (Except.ok pods) userID msg
        = (pods.map (routeAction podID userID msg), none) := by
  refine ⟨?_, ?_⟩
  · exact MQSender.sendLoop_all_ok podID pubErr userID msg pods hok
  · show RMQSender.sendLoop podID pubErr userID msg pods = _
    rw [RMQSender.sendLoop_eq]
    exact MQSender.sendLoop_all_ok podID pubErr userID msg pods hok

/-- Witness for C1, the spec's Scenario A: user "u1" present only on
pod "p1", sender running on pod "p2" — exactly one broker publish, to
topic `ws.send.p1`, and no local delivery. -/
theorem C1_sender_fanout_routes_witness :
    MQSender.SendToUser "p2" (fun _ => none) (Except.ok ["p1"]) "u1" "m"
      = ([SendAction.publish "ws.send.p1" "m"], none) := by
  have h := C1_sender_fanout_routes "p2" (fun _ => none) "u1" "m" ["p1"]
    (by intro q hq hne; rfl)
  rw [h.1]
  decide

/-- Counterexample to C2 as stated: the legacy `Sender.SendToUser`
(src/transport/ws/sender.go), one of the Sender implementations the
claim cites, returns the non-nil error "no active pods for user u1" —
not nil — when the presence query returns an empty pod set with no
error. -/
theorem C2_empty_presence_cex :
    (Sender.SendToUser (fun _ => none) (Except.ok []) "u1" "m").2
      = some "no active pods for user u1" := by
  decide

/-- Claim C2 as amended: the broker-interface senders
(`MQSender.SendToUser`, `RMQSender.SendToUser`) treat an empty
presence set with no error as a successful no-op — nil error, zero
publishes and zero local deliveries — while the legacy
`Sender.SendToUser` of src/transport/ws/sender.go returns the error
"no active pods for user <id>" in that case (still with zero
deliveries). -/
theorem C2_empty_presence_amended (podID userID msg : String)
    (pubErr : String → Option String) :
    MQSender.SendToUser podID pubErr (Except.ok []) userID msg = ([], none)
    ∧ RMQSender.SendToUser podID pubErr (Except.ok []) userID msg = ([], none)
    ∧ Sender.SendToUser pubErr (Except.ok []) userID msg
        = ([], some ("no active pods for user " ++ userID)) :=
  ⟨rfl, rfl, rfl⟩

/-- Counterexample to C5 as stated: the legacy `Sender.SendToUser`
(src/transport/ws/sender.go, cited by the claim) ignores the return
value of `Rabbit.Publish`; with a single remote pod whose publish
fails it performs no delivery at all and still returns nil instead of
a non-nil error. -/
theorem C5_publish_error_cex :
    Sender.SendToUser (fun _ => some "publish failed") (Except.ok ["p1"]) "u1" "m"
      = ([], none) := by
  decide

/-- Claim C5 as amended: `MQSender.SendToUser` (and the identical
RMQSender) surfaces the first failed remote publish as a non-nil error
returned to the caller, and the deliveries already made to earlier
pods of the same call are kept, not rolled back; the legacy
`Sender.SendToUser` of src/transport/ws/sender.go instead drops
publish errors and returns nil whenever the pod set is non-empty. -/
theorem C5_publish_error_amended (podID : String) (pubErr : String → Option String)
    (userID msg e : String) (pre post : List String) (p : String)
    (hp : p ≠ podID) (hf : pubErr (wsSendKey p) = some e)
    (hpre : ∀ q ∈ pre, q ≠ podID → pubErr (wsSendKey q) = none) :
    MQSender.SendToUser podID pubErr (Except.ok (pre ++ p :: post)) userID msg
      = (pre.map (routeAction podID userID msg), some e)
    ∧ ∀ pods : List String, pods = []
        ∨ (Sender.SendToUser pubErr (Except.ok pods) userID msg).2 = none := by
  constructor
  · show MQSender.sendLoop podID pubErr userID msg (pre ++ p :: post) = _
    induction pre with
    | nil =>
      simp [MQSender.sendLoop, hp, hf]
    | cons q rest ih =>
      have hrest := ih (fun q' hq' => hpre q' (List.mem_cons_of_mem _ hq'))
      by_cases hq : q = podID
      · simp [MQSender.sendLoop, hq, routeAction, hrest]
      · have hnone := hpre q (List.mem_cons_self _ _) hq
        simp [MQSender.sendLoop, hq, hnone, routeAction, hrest]
  · intro pods
    cases pods with
    | nil => exact Or.inl rfl
    | cons a l => exact Or.inr rfl

/-- Witness for C5: own pod "p1", remote pods "p2" (publish succeeds)
and "p9" (publish fails with "boom"), then "p3": the call returns the
error "boom" and keeps the local delivery and the successful publish
to ws.send.p2 made before the failure. -/
theorem C5_publish_error_amended_witness :
    MQSender.SendToUser "p1"
        (fun t => if t = "ws.send.p9" then some "boom" else none)
        (Except.ok ["p1", "p2", "p9", "p3"]) "u1" "m"
      = ([SendAction.sendLocal "u1" "m", SendAction.publish "ws.send.p2" "m"],
         some "boom") := by
  have h := C5_publish_error_amended "p1"
    (fun t => if t = "ws.send.p9" then some "boom" else none)
    "u1" "m" "boom" ["p1", "p2"] ["p3"] "p9" (by decide) (by decide)
    (by decide)
  exact h.1.trans (by decide)

/-- Counterexample to C3 as stated: the consumer installed at MQSender
construction (`NewRabbitSender` calls `StartConsumer`, which passes
auto-ack = true to `ch.Consume`) acknowledges on receipt: at a
concrete decoded envelope the broker-level ack is the very first
event, with no successful local delivery before it. -/
theorem C3_ack_after_delivery_cex :
    ¬ ackAfterDelivery
        (StartConsumer.consumeEvents (some ⟨"u1", "chat", "p", "m1", true, 0⟩) true) := by
  intro h
  obtain ⟨j, u, hj, _⟩ := h 0 rfl
  exact absurd hj (Nat.not_lt_zero j)

/-- Claim C3 as amended: in the subscriber installed by `NewRMQSender`
every broker-level acknowledgment is preceded by a successful
`Hub.SendLocal` (acknowledge-after-process: unmarshal or delivery
failures return before `msg.Ack`); the MQSender path's
`StartConsumer`, however, consumes with auto-ack enabled, so its
messages are acknowledged on receipt — the ack is the first event,
before any local delivery. -/
theorem C3_ack_after_delivery_amended :
    (∀ (decoded : Option Envelope) (sendLocalErr : Option String),
        ackAfterDelivery (RMQSender.consumeHandler decoded sendLocalErr).1)
    ∧ (∀ (decoded : Option Envelope) (slOk : Bool),
        (StartConsumer.consumeEvents decoded slOk).head? = some ConsumeEvent.ack) := by
  constructor
  · intro decoded sendLocalErr i hi
    match decoded, sendLocalErr with
    | none, _ => simp [RMQSender.consumeHandler] at hi
    | some env, some e =>
      match i with
      | 0 => simp [RMQSender.consumeHandler] at hi
      | n + 1 => simp [RMQSender.consumeHandler] at hi
    | some env, none =>
      match i with
      | 0 => simp [RMQSender.consumeHandler] at hi
      | 1 => exact ⟨0, env.userID, Nat.zero_lt_one, rfl⟩
      | n + 2 => simp [RMQSender.consumeHandler] at hi
  · intro decoded slOk
    rfl

/-- Witness for C3: the RMQSender handler on a concretely decoded
envelope with a successful local delivery satisfies
acknowledge-after-process. -/
theorem C3_ack_after_delivery_witness :
    ackAfterDelivery
      (RMQSender.consumeHandler (some ⟨"u1", "chat", "p", "m1", true, 0⟩) none).1 :=
  C3_ack_after_delivery_amended.1 (some ⟨"u1", "chat", "p", "m1", true, 0⟩) none

/-- Claim C4: for an envelope stored for user U and never acked, a
restore request redelivers it via local delivery whenever it has no
expiry at all, or `since` is at most its `expiresAt` and it has not
yet expired; an envelope whose positive `expiresAt` lies in the past
is never redelivered; and when the user has no stored entries the
handler replies with the explicit "no message" envelope. -/
theorem C4_restore_round_trip (now since : Int) (entries : List Envelope)
    (env : Envelope) :
    (env ∈ entries →
      (env.expiresAt ≤ 0 ∨ (since ≤ env.expiresAt ∧ now ≤ env.expiresAt)) →
      env ∈ (WebSocket.restoreHandler now (some since) false entries).redelivered)
    ∧ (env ∈ entries → 0 < env.expiresAt → env.expiresAt < now →
      env ∉ (WebSocket.restoreHandler now (some since) false entries).redelivered)
    ∧ (WebSocket.restoreHandler now (some since) false []).noMessageReply = true := by
  refine ⟨?_, ?_, rfl⟩
  · intro hmem hcond
    cases entries with
    | nil => exact absurd hmem (List.not_mem_nil env)
    | cons a l =>
      have hkeep : WebSocket.restoreKeep now since env = true := by
        simp only [WebSocket.restoreKeep, Bool.and_eq_true, Bool.not_eq_true',
          Bool.and_eq_false_iff, decide_eq_false_iff_not, not_lt]
        rcases hcond with h0 | ⟨h1, h2⟩ <;> constructor <;> omega
      simp only [WebSocket.restoreHandler, List.isEmpty_cons, if_false,
        Bool.false_eq_true, if_neg, ite_false]
      exact List.mem_filter.mpr ⟨hmem, hkeep⟩
  · intro hmem hpos hpast
    cases entries with
    | nil =>
      simp [WebSocket.restoreHandler]
    | cons a l =>
      have hkeep : WebSocket.restoreKeep now since env = false := by
        simp only [WebSocket.restoreKeep, Bool.and_eq_false_iff,
          Bool.not_eq_false', Bool.and_eq_true, decide_eq_true_eq,
          Bool.not_eq_true, decide_eq_false_iff_not]
        left
        exact ⟨hpos, hpast⟩
      simp only [WebSocket.restoreHandler, List.isEmpty_cons]
      intro hin
      rcases List.mem_filter.mp hin with ⟨_, hk⟩
      rw [hkeep] at hk
      cases hk

/-- Witness for C4: an envelope with expiry 100, requested with
since = 80 at now = 50, is redelivered; a user with no entries gets
the "no message" reply. -/
theorem C4_restore_round_trip_witness :
    (⟨"u1", "chat", "p", "m1", true, 100⟩ : Envelope)
      ∈ (WebSocket.restoreHandler 50 (some 80) false
          [⟨"u1", "chat", "p", "m1", true, 100⟩]).redelivered
    ∧ (WebSocket.restoreHandler 50 (some 80) false []).noMessageReply = true := by
  have h := C4_restore_round_trip 50 80 [⟨"u1", "chat", "p", "m1", true, 100⟩]
      ⟨"u1", "chat", "p", "m1", true, 100⟩
  exact ⟨h.1 (List.mem_singleton.mpr rfl) (Or.inr (by constructor <;> norm_num)),
    h.2.2⟩

/-- Claim C6: within one fixed window the first N `Allow` calls return
true and every later call false — with the default limit 20, the 21
calls of one window yield 20 true and 1 false; the call whose INCR
establishes the window (count 1) is exactly the one that sets the
window key's expiry; and a storage error makes `Allow` fail open
(return true). -/
theorem C6_rate_limiter_window :
    ((RedisRateLimiter.allowCalls 20 21).count true = 20
      ∧ (RedisRateLimiter.allowCalls 20 21).count false = 1)
    ∧ (∀ limit count : Nat, 1 ≤ count → count ≤ limit →
        (RedisRateLimiter.Allow limit (some count)).allowed = true)
    ∧ (∀ limit count : Nat, limit < count →
        (RedisRateLimiter.Allow limit (some count)).allowed = false)
    ∧ (∀ limit : Nat, (RedisRateLimiter.Allow limit (some 1)).setExpire = true)
    ∧ (∀ limit count : Nat, count ≠ 1 →
        (RedisRateLimiter.Allow limit (some count)).setExpire = false)
    ∧ (∀ limit : Nat, (RedisRateLimiter.Allow limit none).allowed = true) := by
  refine ⟨by decide, ?_, ?_, ?_, ?_, fun _ => rfl⟩
  · intro limit count _ hle
    exact decide_eq_true hle
  · intro limit count hlt
    exact decide_eq_false (Nat.not_le_of_lt hlt)
  · intro limit
    rfl
  · intro limit count hne
    exact beq_eq_false_iff_ne.mpr hne

/-- Witness for C6, the spec's Scenario D shape: with limit 20, the
5th call of a window is allowed, the 21st is rejected, and the 1st is
the one that set the window expiry. -/
theorem C6_rate_limiter_window_witness :
    (RedisRateLimiter.Allow 20 (some 5)).allowed = true
    ∧ (RedisRateLimiter.Allow 20 (some 21)).allowed = false
    ∧ (RedisRateLimiter.Allow 20 (some 1)).setExpire = true :=
  ⟨C6_rate_limiter_window.2.1 20 5 (by decide) (by decide),
   C6_rate_limiter_window.2.2.1 20 21 (by decide),
   C6_rate_limiter_window.2.2.2.1 20⟩

/-- Claim C7 (Hub modelled from the spec, see `Hub.SendLocal`): after
`Hub.Add(U, c)` and before `Hub.Remove(c)`, a single
`Hub.SendLocal(U, m)` enqueues `m` onto c's outbound channel exactly
once — c's new buffer is its old buffer with `m` appended once —
provided the channel is not full, while the rest of the hub is
processed independently of c. -/
theorem C7_sendlocal_enqueues_once (hub : List HubConn) (U m : String)
    (c : HubConn) (hroom : c.buf.length < c.cap) :
    Hub.SendLocal U m (Hub.Add U c hub)
      = { c with userID := U, buf := c.buf ++ [m] } :: Hub.SendLocal U m hub := by
  simp [Hub.SendLocal, Hub.Add, Conn.tryEnqueue, hroom]

/-- Witness for C7: a fresh connection with the code's channel
capacity 64 and an empty buffer receives exactly one copy of "m1". -/
theorem C7_sendlocal_enqueues_once_witness :
    Hub.SendLocal "u1" "m1" (Hub.Add "u1" ⟨"c1", "u1", [], 64⟩ [])
      = [⟨"c1", "u1", ["m1"], 64⟩] := by
  have h := C7_sendlocal_enqueues_once [] "u1" "m1" ⟨"c1", "u1", [], 64⟩
    (by decide)
  exact h.trans rfl

/-- Counterexample to C8 as stated: the current read loop
(`WebSocket.readLoop`, src/unnamed/part_020) handles a frame that is
not valid JSON by logging and continuing only — it sends no structured
"error" envelope reply (its reply list is empty), although it does
keep the connection open. -/
theorem C8_malformed_frame_cex :
    (WebSocket.readLoopStep false true none).replies = []
    ∧ (WebSocket.readLoopStep false true none).closes = false := by
  decide

/-- Claim C8 as amended: a malformed-JSON inbound frame never closes
the socket and the read loop continues in both generations, but only
the legacy `Hub.listen` (src/transport/ws/hub.go) sends the structured
"error" envelope reply ("error parsing command");
`WebSocket.readLoop` (src/unnamed/part_020) logs and silently drops
the frame without any reply. -/
theorem C8_malformed_frame_amended (allowed : Bool)
    (route : String → Option Bool) :
    (WebSocket.readLoopStep false allowed none).closes = false
    ∧ (WebSocket.readLoopStep false allowed none).replies = []
    ∧ (WebSocket.readLoopStep false allowed none).dispatched = none
    ∧ (Hub.listenStep false none route).closes = false
    ∧ (Hub.listenStep false none route).replies
        = [("error", "error parsing command")]
    ∧ (Hub.listenStep false none route).dispatched = none := by
  cases allowed <;> simp [WebSocket.readLoopStep, Hub.listenStep]

/-- Counterexample to C9 as stated: storage errors inside AckStore
operations are not propagated — at concrete failing inputs, `Save`
surfaces no error (its Go signature has no error result at all),
`AckHandler` returns nil although the `DEL` failed, and the restore
handler returns nil although the `KEYS` scan failed. -/
theorem C9_ackstore_error_cex :
    (AckStore.Save (some "redis down") [] "ws:ack:u1:m1" "msg").2 = none
    ∧ (AckStore.AckHandler "ws:ack" "u1" (some "m1") (some "redis down")
        [("ws:ack:u1:m1", "msg")]).2 = none
    ∧ (WebSocket.restoreHandler 0 (some 0) true []).err = none := by
  decide

/-- Claim C9 as amended: every storage error inside an AckStore
operation is logged and swallowed, never propagated: `Save` returns no
error whatever the SETEX outcome, `AckHandler` returns nil whatever
the DEL outcome (only its payload-unmarshal error propagates), and the
restore handler returns nil when the entry scan fails. -/
theorem C9_ackstore_error_amended (key msg pfx userID id : String)
    (store : List (String × String)) (setexErr delErr : Option String)
    (now since : Int) (entries : List Envelope) :
    (AckStore.Save setexErr store key msg).2 = none
    ∧ (AckStore.AckHandler pfx userID (some id) delErr store).2 = none
    ∧ (AckStore.AckHandler pfx userID none delErr store).2
        = some "unmarshal error"
    ∧ (WebSocket.restoreHandler now (some since) true entries).err = none := by
  cases setexErr <;> cases delErr <;>
    simp [AckStore.Save, AckStore.AckHandler, WebSocket.restoreHandler]

/-- Claim C10: on marshal success, `WebSocket.SendToUser` writes an
AckStore entry iff the envelope requires ack, an AckStore is
configured and the envelope id is non-empty; the dispatch to the
Sender always happens and is the last event, so any ack-save precedes
it; and an envelope with RequiresAck = true but an empty id is still
dispatched while the AckStore is left unchanged. -/
theorem C10_ack_save_iff (hasAckStore : Bool) (msg userID : String)
    (senderErr : Option String) (e : Envelope) :
    ((SendEvent.ackSave userID e.id msg
        ∈ (WebSocket.SendToUser hasAckStore (some msg) senderErr userID e).1)
      ↔ (e.requiresAck = true ∧ hasAckStore = true ∧ e.id ≠ ""))
    ∧ ((WebSocket.SendToUser hasAckStore (some msg) senderErr userID e).1.getLast?
        = some (SendEvent.dispatch userID msg))
    ∧ (e.requiresAck = true → e.id = "" →
        (WebSocket.SendToUser hasAckStore (some msg) senderErr userID e).1
          = [SendEvent.dispatch userID msg]) := by
  by_cases hc : (e.requiresAck && hasAckStore && !(e.id == "")) = true
  · have hc' := hc
    simp only [Bool.and_eq_true, Bool.not_eq_true', beq_eq_false_iff_ne] at hc'
    obtain ⟨⟨hra, has⟩, hid⟩ := hc'
    refine ⟨?_, ?_, ?_⟩
    · simp [WebSocket.SendToUser, hc]
      exact ⟨hra, has, hid⟩
    · simp [WebSocket.SendToUser, hc]
    · intro _ hid'
      exact absurd hid' hid
  · have hc' : (e.requiresAck && hasAckStore && !(e.id == "")) = false :=
      Bool.eq_false_iff.mpr hc
    have hnot : ¬(e.requiresAck = true ∧ hasAckStore = true ∧ e.id ≠ "") := by
      intro hand
      exact hc (by simp [hand.1, hand.2.1, beq_eq_false_iff_ne.mpr hand.2.2])
    refine ⟨?_, ?_, ?_⟩
    · simp only [WebSocket.SendToUser, hc', Bool.false_eq_true, if_false]
      simp only [List.mem_singleton]
      constructor
      · intro heq
        cases heq
      · intro hand
        exact absurd hand hnot
    · simp [WebSocket.SendToUser, hc']
    · intro _ _
      simp [WebSocket.SendToUser, hc']

/-- Witness for C10: an envelope with RequiresAck = true and an empty
id, sent with an AckStore configured, is dispatched to the Sender with
no AckStore write. -/
theorem C10_ack_save_iff_witness :
    (WebSocket.SendToUser true (some "m") none "u1"
        ⟨"u1", "chat", "p", "", true, 0⟩).1
      = [SendEvent.dispatch "u1" "m"] :=
  (C10_ack_save_iff true "m" "u1" none ⟨"u1", "chat", "p", "", true, 0⟩).2.2 rfl rfl
